import Mathlib

/-!
Shallow embedding of pqiv's `lib/thumbnailcache.c` (freedesktop thumbnail
cache: CRC-32 engine, PNG tEXt attribute scanner, provenance-injecting PNG
writer, store/load drivers), together with proofs about the embedded code.

Bytes are modelled as natural numbers (file contents are `List Nat`, with
values below 256 in every well-formed file); 32-bit machine arithmetic is
modelled on `Nat` with explicit reductions modulo 2^32 / 256 where the C
code truncates.
-/

set_option maxRecDepth 100000

namespace ThumbnailCache

/-! ## Definitions: the embedded program and concrete artifacts -/

/-- Big-endian numeric value of a byte list, as `ntohl` reads a 4-byte field. -/
def beVal (l : List Nat) : Nat := l.foldl (fun a b => a * 256 + b) 0

/-- Big-endian 4-byte encoding of a 32-bit value, as `htonl` writes it.
Each limb extracts one byte, so values ≥ 2^32 are truncated exactly as the
C cast does. -/
def u32be (n : Nat) : List Nat :=
  [n / 2 ^ 24 % 256, n / 2 ^ 16 % 256, n / 2 ^ 8 % 256, n % 256]

/-- One iteration of the inner loop of `make_crc_table`: reflected
polynomial 0xEDB88320 step. -/
def crcIter (c : Nat) : Nat := if c % 2 = 1 then 0xedb88320 ^^^ (c / 2) else c / 2

/-- Entry n of crc_table: eight reflection iterations starting from the entry
index, exactly the inner loop of `make_crc_table`. -/
def crc_table (n : Nat) : Nat := crcIter^[8] n

/-- One byte of the running CRC update:
`c = crc_table[(c ^ buf[n]) & 0xff] ^ (c >> 8)`. -/
def crcUpdate (c b : Nat) : Nat := crc_table ((c ^^^ b) % 256) ^^^ (c / 256)

/-- The `crc` function of the source: running value initialized by XOR with
0xFFFFFFFF, one table-lookup update per byte, finalized by XOR with
0xFFFFFFFF. -/
def crc (seed : Nat) (buf : List Nat) : Nat :=
  buf.foldl crcUpdate (seed ^^^ 0xffffffff) ^^^ 0xffffffff

/-- The 8-byte PNG signature `(137, 80, 78, 71, 13, 10, 26, 10)`. -/
def pngSignature : List Nat := [137, 80, 78, 71, 13, 10, 26, 10]

/-- ASCII bytes of the chunk type `"tEXt"`. -/
def tEXtType : List Nat := [116, 69, 88, 116]

/-- ASCII bytes of the chunk type `"IHDR"`. -/
def ihdrType : List Nat := [73, 72, 68, 82]

/-- ASCII bytes of the key `"Thumb::URI"` (10 bytes, without NUL). -/
def thumbURIKey : List Nat := [84, 104, 117, 109, 98, 58, 58, 85, 82, 73]

/-- ASCII bytes of the key `"Thumb::MTime"` (12 bytes, without NUL). -/
def thumbMTimeKey : List Nat := [84, 104, 117, 109, 98, 58, 58, 77, 84, 105, 109, 101]

/-- Fuel-driven decimal rendering helper (most significant digit first). -/
def decimalAux : Nat → Nat → List Nat
  | 0, _ => []
  | fuel + 1, n => if n < 10 then [48 + n] else decimalAux fuel (n / 10) ++ [48 + n % 10]

/-- Decimal ASCII rendering of an unsigned integer, as
`g_strdup_printf("%lu", ...)` produces it (`"0"` for zero, no sign, no
leading zeros). -/
def decimal (n : Nat) : List Nat := decimalAux (n + 1) n

/-- The comparison `strncmp(a, b, strlen(b)) == 0` for a NUL-free C string `b` laid out at
`a`: the first `strlen(b)` bytes at `a` equal `b`.  (When fewer than
`strlen(b)` bytes are in bounds at `a`, the C code reads indeterminate
memory; the model reports a mismatch.) -/
def strncmpEq (a b : List Nat) : Bool := decide (a.take b.length = b)

/-- The chunk loop of `check_png_attributes`, operating on the unread
suffix of the file.  `fuel` bounds the number of loop iterations; every
iteration consumes at least 12 bytes of the suffix, so `fuel` = file
length always suffices.  Mirrors the C loop:
read an 8-byte chunk header (big-endian length, 4-byte type); for `tEXt`
chunks read payload and stored CRC, recompute the CRC over type+payload,
and on agreement re-evaluate the URI / MTime match flags (overwriting
them) and return true as soon as both hold; otherwise skip the chunk.
Any short read returns false. -/
def scanChunks (fileURI mtimeStr : List Nat) : Nat → List Nat → Bool → Bool → Bool
  | 0, _, _, _ => false
  | fuel + 1, rest, uriM, mtM =>
    if rest.length < 8 then false
    else
      let len := beVal (rest.take 4)
      if (rest.drop 4).take 4 = tEXtType then
        let body := rest.drop 8
        if body.length < len then false
        else if (body.drop len).length < 4 then false
        else
          let data := body.take len
          if beVal ((body.drop len).take 4) = crc (crc 0 tEXtType) data then
            let uriM' := if data.take 11 = thumbURIKey ++ [0] then
                strncmpEq (data.drop 11) fileURI
              else uriM
            let mtM' := if data.take 11 = thumbURIKey ++ [0] then mtM
              else if data.take 13 = thumbMTimeKey ++ [0] then
                strncmpEq (data.drop 13) mtimeStr
              else mtM
            if uriM' && mtM' then true
            else scanChunks fileURI mtimeStr fuel (rest.drop (12 + len)) uriM' mtM'
          else scanChunks fileURI mtimeStr fuel (rest.drop (12 + len)) uriM mtM
      else scanChunks fileURI mtimeStr fuel (rest.drop (12 + len)) uriM mtM

/-- The function `check_png_attributes(file_name, file_uri, file_mtime)`: the file's
bytes are the first argument (an unopenable file is the same as an empty
byte list: both fail the signature read).  Checks the 8-byte PNG signature
and then scans the chunk sequence for CRC-valid `Thumb::URI` /
`Thumb::MTime` tEXt chunks matching `fileURI` and the decimal rendering of
`mtime`. -/
def check_png_attributes (file fileURI : List Nat) (mtime : Nat) : Bool :=
  if file.length < 8 then false
  else if file.take 8 = pngSignature then
    scanChunks fileURI (decimal mtime) file.length (file.drop 8) false false
  else false

/-- The injection offset of `png_writer`: 8 (signature) + 8 (IHDR header) +
13 (IHDR payload) + 4 (IHDR CRC). -/
def inject_pos : Nat := 8 + (4 + 4 + 4 + 13)

/-- A complete tEXt chunk as `png_writer` builds it: 4-byte big-endian
length field (key length incl. NUL terminator + value length), the type
`"tEXt"`, the payload `key ++ NUL ++ value`, and the 4-byte big-endian
CRC-32 over type + payload. -/
def textChunk (key value : List Nat) : List Nat :=
  u32be (key.length + 1 + value.length) ++ tEXtType ++ key ++ [0] ++ value ++
    u32be (crc 0 (tEXtType ++ key ++ [0] ++ value))

/-- One call of the `png_writer` interceptor: given the cumulative count of
encoder bytes forwarded so far and the bytes of this write call, returns
the bytes sent to the destination file and the updated count.  When the
call's byte range straddles `inject_pos`, the prefix up to `inject_pos` is
forwarded, the two tEXt chunks are spliced in, and the rest follows;
otherwise the call passes through unmodified. -/
def png_writer (thumbURI thumbMTime : List Nat) (bytes_written : Nat) (data : List Nat) :
    List Nat × Nat :=
  if bytes_written < inject_pos ∧ inject_pos ≤ bytes_written + data.length then
    (data.take (inject_pos - bytes_written) ++ textChunk thumbURIKey thumbURI ++
       textChunk thumbMTimeKey thumbMTime ++ data.drop (inject_pos - bytes_written),
     inject_pos + (data.drop (inject_pos - bytes_written)).length)
  else (data, bytes_written + data.length)

/-- A whole run of the interceptor: the encoder partitions its output into
successive write calls; the state (cumulative byte count) is threaded
through and the forwarded bytes are concatenated. -/
def png_writer_run (thumbURI thumbMTime : List Nat) : Nat → List (List Nat) → List Nat
  | _, [] => []
  | bw, d :: ds =>
    (png_writer thumbURI thumbMTime bw d).1 ++
      png_writer_run thumbURI thumbMTime (png_writer thumbURI thumbMTime bw d).2 ds

/-- The one-shot splice specification, written from the spec's words: the
output consists of the first 33 input bytes unmodified, then the complete
`Thumb::URI` tEXt chunk, then the complete `Thumb::MTime` tEXt chunk, then
all remaining input bytes unmodified. -/
def splice_spec (thumbURI thumbMTime input : List Nat) : List Nat :=
  input.take 33 ++ textChunk thumbURIKey thumbURI ++
    textChunk thumbMTimeKey thumbMTime ++ input.drop 33

/-- Chunk sequences that contain no tEXt chunk at all (each chunk has a
non-tEXt type, or the sequence ends, possibly with a truncated trailer). -/
inductive NoTextChunks : List Nat → Prop
  | short (rest : List Nat) (h : rest.length < 8) : NoTextChunks rest
  | skip (rest : List Nat) (h8 : ¬ rest.length < 8) (ht : (rest.drop 4).take 4 ≠ tEXtType)
      (hrec : NoTextChunks (rest.drop (12 + beVal (rest.take 4)))) : NoTextChunks rest

/-- The size gate of `store_thumbnail_to_cache`: level 0 ("large") when
either dimension equals 256, else level 1 ("normal") when either dimension
equals 128, else no level (rejected).  Note the source tests each dimension
for equality; it does not compute the long edge. -/
def thumbnail_level (width height : Nat) : Option Nat :=
  if width = 256 ∨ height = 256 then some 0
  else if width = 128 ∨ height = 128 then some 1
  else none

/-- Abstract outcomes of the environment during one `store` call:
whether `get_local_filename` yields a path, whether `g_open` of the
destination succeeds (`fd > 0`), and whether
`cairo_surface_write_to_png_stream` reports success. -/
structure StoreEnv where
  hasLocalFilename : Bool
  openOk : Bool
  encodeOk : Bool

/-- The function `store_thumbnail_to_cache`, observed as
(return value, destination file was created, destination file remains
afterwards).  Mirrors the source control flow: size gate, local-filename
gate, then `retval` starts as TRUE; only inside the `fd > 0` branch can an
encode failure unlink the file and set `retval` to FALSE — an open failure
leaves `retval` TRUE. -/
def store_thumbnail_to_cache (width height : Nat) (env : StoreEnv) : Bool × Bool × Bool :=
  if (thumbnail_level width height).isNone then (false, false, false)
  else if env.hasLocalFilename = false then (false, false, false)
  else if env.openOk then
    if env.encodeOk then (true, true, true) else (false, true, false)
  else (true, false, false)

/-- Abstract outcomes of the environment during one `load` call.
`statOk` records whether `stat` on the source file succeeded; the source
never inspects this result, and `mtimeVal` is the value found in
`file_stat.st_mtime` afterwards (indeterminate when `statOk` is false).
`primaryExists j` / `sharedExists j` report `g_file_test(..., EXISTS)` for
the tier-`j` candidate; `primaryLoadOk j m` / `sharedLoadOk j m` report
whether `load_thumbnail` succeeds on that candidate against mtime `m`. -/
structure LoadEnv where
  hasLocalFilename : Bool
  statOk : Bool
  mtimeVal : Nat
  primaryExists : Nat → Bool
  primaryLoadOk : Nat → Nat → Bool
  sharedDirExists : Bool
  sharedExists : Nat → Bool
  sharedLoadOk : Nat → Nat → Bool

/-- The candidate loop `for(j = start; j < 2; j++)` over the list of tier
indices to try.  Returns (hit?, list of tier indices whose candidate path
was examined, in order). -/
def tryTiers (candExists loadOk : Nat → Bool) : List Nat → Bool × List Nat
  | [] => (false, [])
  | j :: js =>
    if candExists j then
      if loadOk j then (true, [j])
      else ((tryTiers candExists loadOk js).1, j :: (tryTiers candExists loadOk js).2)
    else ((tryTiers candExists loadOk js).1, j :: (tryTiers candExists loadOk js).2)

/-- The tier indices the loop iterates over:
`j` starts at 0 ("large") when either requested dimension exceeds 128,
else at 1 ("normal"), and runs while `j < 2`. -/
def tierList (width height : Nat) : List Nat :=
  if 128 < width ∨ 128 < height then [0, 1] else [1]

/-- The function `load_thumbnail_from_cache`, observed as (hit?, trace of candidate
paths examined, tagged `false` for the primary URI-hash search and `true`
for the shared-directory basename-hash search).  Mirrors the source:
size precondition, local-filename gate, `stat` whose result is not
inspected, primary loop, then — only if the primary loop found nothing and
the shared directory exists — the shared loop over the same tier list. -/
def load_thumbnail_from_cache (width height : Nat) (env : LoadEnv) : Bool × List (Bool × Nat) :=
  if 256 < width ∨ 256 < height then (false, [])
  else if env.hasLocalFilename = false then (false, [])
  else if (tryTiers env.primaryExists (fun j => env.primaryLoadOk j env.mtimeVal)
      (tierList width height)).1 then
    (true, (tryTiers env.primaryExists (fun j => env.primaryLoadOk j env.mtimeVal)
      (tierList width height)).2.map (fun j => (false, j)))
  else if env.sharedDirExists then
    ((tryTiers env.sharedExists (fun j => env.sharedLoadOk j env.mtimeVal)
        (tierList width height)).1,
      (tryTiers env.primaryExists (fun j => env.primaryLoadOk j env.mtimeVal)
        (tierList width height)).2.map (fun j => (false, j)) ++
      (tryTiers env.sharedExists (fun j => env.sharedLoadOk j env.mtimeVal)
        (tierList width height)).2.map (fun j => (true, j)))
  else
    (false, (tryTiers env.primaryExists (fun j => env.primaryLoadOk j env.mtimeVal)
      (tierList width height)).2.map (fun j => (false, j)))

/-- Reference reflected CRC-32: XOR each byte into the low bits of the
running value, then run eight reflected-polynomial steps directly —
no lookup table. -/
def crc32_ref (buf : List Nat) : Nat :=
  buf.foldl (fun c b => crcIter^[8] (c ^^^ b % 256)) 0xffffffff ^^^ 0xffffffff

/-- ASCII bytes of `"file:///home/u/pic.jpg"`. -/
def picURI : List Nat :=
  [102, 105, 108, 101, 58, 47, 47, 47, 104, 111, 109, 101, 47, 117, 47, 112, 105, 99, 46, 106, 112, 103]

/-- The payload of a `Thumb::URI` tEXt chunk with value `"a"`. -/
def c5payload : List Nat := thumbURIKey ++ ([0] ++ [97])

/-- The correct checksum of that chunk with its lowest bit flipped. -/
def c5badCRC : List Nat := u32be (crc (crc 0 tEXtType) c5payload ^^^ 1)

/-- A chunk sequence holding a matching `Thumb::URI` chunk, then a
CRC-valid non-matching duplicate `Thumb::URI` chunk, then a matching
`Thumb::MTime` chunk. -/
def scannerFileCleared : List Nat :=
  pngSignature ++ (textChunk thumbURIKey [97] ++
    (textChunk thumbURIKey [98] ++ textChunk thumbMTimeKey (decimal 5)))

/-- The same file without the clearing duplicate. -/
def scannerFileBoth : List Nat :=
  pngSignature ++ (textChunk thumbURIKey [97] ++ textChunk thumbMTimeKey (decimal 5))

/-- A minimal well-formed PNG encoder stream: signature, then an IHDR
chunk with an all-zero 13-byte payload and an (unchecked by the scanner's
skip path) 4-byte checksum, and nothing else. -/
def pngMin : List Nat :=
  pngSignature ++ (u32be 13 ++ (ihdrType ++ (List.replicate 13 0 ++ ([0, 0, 0, 0] ++ []))))

/-- All-miss environment for the C7 witness. -/
def c7env : LoadEnv :=
  ⟨true, true, 0, fun _ => false, fun _ _ => false, true, fun _ => false, fun _ _ => false⟩

/-- Environment for C8: `stat` fails, `file_stat.st_mtime` is left holding
the indeterminate value 42, and a normal-tier cache entry exists that
validates against exactly that value. -/
def c8env : LoadEnv :=
  ⟨true, false, 42, fun j => j == 1, fun j m => (j == 1) && (m == 42), false, fun _ => false,
    fun _ _ => false⟩

/-! ## Theorems -/

theorem u32be_length (n : Nat) : (u32be n).length = 4 := rfl

theorem beVal_u32be {n : Nat} (h : n < 2 ^ 32) : beVal (u32be n) = n := by
  simp only [beVal, u32be, List.foldl]
  norm_num at h ⊢
  omega

theorem crcIter_lt {c : Nat} (h : c < 2 ^ 32) : crcIter c < 2 ^ 32 := by
  unfold crcIter
  split
  · exact Nat.xor_lt_two_pow (by norm_num) (Nat.lt_of_le_of_lt (Nat.div_le_self c 2) h)
  · exact Nat.lt_of_le_of_lt (Nat.div_le_self c 2) h

theorem crcIter_iterate_lt {c : Nat} (h : c < 2 ^ 32) (k : Nat) : crcIter^[k] c < 2 ^ 32 := by
  induction k generalizing c with
  | zero => exact h
  | succ k ih => rw [Function.iterate_succ_apply]; exact ih (crcIter_lt h)

theorem crc_table_lt {n : Nat} (h : n < 2 ^ 32) : crc_table n < 2 ^ 32 :=
  crcIter_iterate_lt h 8

theorem crcUpdate_lt {c : Nat} (b : Nat) (h : c < 2 ^ 32) : crcUpdate c b < 2 ^ 32 := by
  unfold crcUpdate
  exact Nat.xor_lt_two_pow
    (crc_table_lt (Nat.lt_of_lt_of_le (Nat.mod_lt _ (by norm_num)) (by norm_num)))
    (Nat.lt_of_le_of_lt (Nat.div_le_self c 256) h)

theorem crc_foldl_lt {c : Nat} (l : List Nat) (h : c < 2 ^ 32) :
    l.foldl crcUpdate c < 2 ^ 32 := by
  induction l generalizing c with
  | nil => exact h
  | cons b l ih => exact ih (crcUpdate_lt b h)

theorem crc_lt {seed : Nat} (l : List Nat) (h : seed < 2 ^ 32) : crc seed l < 2 ^ 32 := by
  unfold crc
  exact Nat.xor_lt_two_pow (crc_foldl_lt l (Nat.xor_lt_two_pow h (by norm_num))) (by norm_num)

/-- Running the CRC with a previous CRC as seed continues the computation:
the chained `crc(crc(0, a), b)` of the scanner equals the writer's one-shot
`crc(0, a ++ b)`.  The final and initial XORs with 0xFFFFFFFF cancel. -/
theorem crc_append (seed : Nat) (a b : List Nat) :
    crc (crc seed a) b = crc seed (a ++ b) := by
  unfold crc
  rw [Nat.xor_cancel_right, List.foldl_append]

theorem take_app {l₁ l₂ : List Nat} {n : Nat} (h : l₁.length = n) : (l₁ ++ l₂).take n = l₁ :=
  List.take_left' h

theorem drop_app {l₁ l₂ : List Nat} {n : Nat} (h : l₁.length = n) : (l₁ ++ l₂).drop n = l₂ :=
  List.drop_left' h

/-- Master step lemma: scanning a file whose unread suffix begins with one
complete chunk (length field matching the payload, 4-byte type, payload,
4-byte stored checksum) performs exactly the source's case analysis on that
chunk and then continues after it. -/
theorem scan_chunk_step (fileURI mtimeStr T P C rest : List Nat) (uriM mtM : Bool) (fuel : Nat)
    (hT : T.length = 4) (hC : C.length = 4) (hL : P.length < 2 ^ 32) :
    scanChunks fileURI mtimeStr (fuel + 1) (u32be P.length ++ (T ++ (P ++ (C ++ rest)))) uriM mtM =
      if T = tEXtType then
        if beVal C = crc (crc 0 tEXtType) P then
          if (if P.take 11 = thumbURIKey ++ [0] then strncmpEq (P.drop 11) fileURI else uriM) &&
              (if P.take 11 = thumbURIKey ++ [0] then mtM
                else if P.take 13 = thumbMTimeKey ++ [0] then strncmpEq (P.drop 13) mtimeStr
                else mtM) then
            true
          else
            scanChunks fileURI mtimeStr fuel rest
              (if P.take 11 = thumbURIKey ++ [0] then strncmpEq (P.drop 11) fileURI else uriM)
              (if P.take 11 = thumbURIKey ++ [0] then mtM
                else if P.take 13 = thumbMTimeKey ++ [0] then strncmpEq (P.drop 13) mtimeStr
                else mtM)
        else scanChunks fileURI mtimeStr fuel rest uriM mtM
      else scanChunks fileURI mtimeStr fuel rest uriM mtM := by
  have hg : u32be P.length ++ (T ++ (P ++ (C ++ rest))) =
      (u32be P.length ++ T) ++ (P ++ (C ++ rest)) := (List.append_assoc _ _ _).symm
  have e1 : (u32be P.length ++ (T ++ (P ++ (C ++ rest)))).take 4 = u32be P.length :=
    take_app (u32be_length P.length)
  have e2 : ((u32be P.length ++ (T ++ (P ++ (C ++ rest)))).drop 4).take 4 = T := by
    rw [drop_app (u32be_length P.length)]
    exact take_app hT
  have e4 : (u32be P.length ++ (T ++ (P ++ (C ++ rest)))).drop 8 = P ++ (C ++ rest) := by
    rw [hg]
    exact drop_app (by simp [hT, u32be_length])
  have e5 : (P ++ (C ++ rest)).take P.length = P := take_app rfl
  have e6 : (P ++ (C ++ rest)).drop P.length = C ++ rest := drop_app rfl
  have e7 : (C ++ rest).take 4 = C := take_app hC
  have e8 : (u32be P.length ++ (T ++ (P ++ (C ++ rest)))).drop (12 + P.length) = rest := by
    have hg2 : u32be P.length ++ (T ++ (P ++ (C ++ rest))) =
        (u32be P.length ++ (T ++ (P ++ C))) ++ rest := by simp [List.append_assoc]
    rw [hg2]
    exact drop_app (by simp [hT, hC, u32be_length]; omega)
  have hlen : (u32be P.length ++ (T ++ (P ++ (C ++ rest)))).length =
      12 + P.length + rest.length := by
    simp [hT, hC, u32be_length]
    omega
  have h8 : ¬ ((u32be P.length ++ (T ++ (P ++ (C ++ rest)))).length < 8) := by rw [hlen]; omega
  have hb1 : ¬ ((P ++ (C ++ rest)).length < P.length) := by simp
  have hb2 : ¬ ((C ++ rest).length < 4) := by simp [hC]
  simp only [scanChunks]
  rw [e1, beVal_u32be hL, e2, e4, e5, e6, e7, e8]
  rw [if_neg h8]
  by_cases ht : T = tEXtType
  · rw [if_pos ht, if_pos ht, if_neg hb1, if_neg hb2]
  · rw [if_neg ht, if_neg ht]

/-- Stepping over a non-tEXt chunk (e.g. IHDR, IDAT, IEND): the scanner
skips it, leaving both flags untouched. -/
theorem scan_skip_step (fileURI mtimeStr T P C rest : List Nat) (uriM mtM : Bool) (fuel : Nat)
    (hT : T.length = 4) (hC : C.length = 4) (hL : P.length < 2 ^ 32) (hne : T ≠ tEXtType) :
    scanChunks fileURI mtimeStr (fuel + 1) (u32be P.length ++ (T ++ (P ++ (C ++ rest)))) uriM mtM =
      scanChunks fileURI mtimeStr fuel rest uriM mtM := by
  rw [scan_chunk_step fileURI mtimeStr T P C rest uriM mtM fuel hT hC hL, if_neg hne]

/-- C5: a tEXt chunk whose stored trailing checksum disagrees with the
CRC-32 recomputed over the chunk-type bytes plus payload is never treated
as a URI or mtime match — whatever its key and value say, both flags are
left unchanged (the chunk is treated as absent) and the scan continues
with the next chunk. -/
theorem scan_badcrc_step (fileURI mtimeStr P C rest : List Nat) (uriM mtM : Bool) (fuel : Nat)
    (hC : C.length = 4) (hL : P.length < 2 ^ 32)
    (hbad : beVal C ≠ crc (crc 0 tEXtType) P) :
    scanChunks fileURI mtimeStr (fuel + 1) (u32be P.length ++ (tEXtType ++ (P ++ (C ++ rest)))) uriM mtM =
      scanChunks fileURI mtimeStr fuel rest uriM mtM := by
  rw [scan_chunk_step fileURI mtimeStr tEXtType P C rest uriM mtM fuel rfl hC hL,
    if_pos rfl, if_neg hbad]

/-- Stepping over a well-formed `Thumb::URI` tEXt chunk with value `v`:
the URI flag is overwritten with this chunk's own comparison result
(previous value discarded), and the scan returns true immediately when both
flags now hold. -/
theorem scan_uri_step (fileURI mtimeStr v rest : List Nat) (uriM mtM : Bool) (fuel : Nat)
    (hv : v.length + 11 < 2 ^ 32) :
    scanChunks fileURI mtimeStr (fuel + 1) (textChunk thumbURIKey v ++ rest) uriM mtM =
      if strncmpEq v fileURI && mtM then true
      else scanChunks fileURI mtimeStr fuel rest (strncmpEq v fileURI) mtM := by
  have hP : (thumbURIKey ++ ([0] ++ v)).length < 2 ^ 32 := by simp [thumbURIKey]; omega
  have key1 : textChunk thumbURIKey v ++ rest =
      u32be (thumbURIKey ++ ([0] ++ v)).length ++ (tEXtType ++ ((thumbURIKey ++ ([0] ++ v)) ++
        (u32be (crc 0 (tEXtType ++ (thumbURIKey ++ ([0] ++ v)))) ++ rest))) := by
    simp [textChunk, List.append_assoc]
    congr 1
    omega
  have hsplit : thumbURIKey ++ ([0] ++ v) = (thumbURIKey ++ [0]) ++ v :=
    (List.append_assoc _ _ _).symm
  have hk : (thumbURIKey ++ ([0] ++ v)).take 11 = thumbURIKey ++ [0] := by
    rw [hsplit]; exact take_app rfl
  have hd : (thumbURIKey ++ ([0] ++ v)).drop 11 = v := by
    rw [hsplit]; exact drop_app rfl
  have hcrc : beVal (u32be (crc 0 (tEXtType ++ (thumbURIKey ++ ([0] ++ v))))) =
      crc (crc 0 tEXtType) (thumbURIKey ++ ([0] ++ v)) := by
    rw [crc_append]; exact beVal_u32be (crc_lt _ (by norm_num))
  rw [key1, scan_chunk_step fileURI mtimeStr tEXtType (thumbURIKey ++ ([0] ++ v))
    (u32be (crc 0 (tEXtType ++ (thumbURIKey ++ ([0] ++ v))))) rest uriM mtM fuel rfl rfl hP]
  rw [if_pos rfl, if_pos hcrc]
  simp only [hk, hd, eq_self_iff_true, if_true]

/-- Stepping over a well-formed `Thumb::MTime` tEXt chunk with value `v`:
the MTime flag is overwritten with this chunk's own comparison result, and
the scan returns true immediately when both flags now hold. -/
theorem scan_mtime_step (fileURI mtimeStr v rest : List Nat) (uriM mtM : Bool) (fuel : Nat)
    (hv : v.length + 13 < 2 ^ 32) :
    scanChunks fileURI mtimeStr (fuel + 1) (textChunk thumbMTimeKey v ++ rest) uriM mtM =
      if uriM && strncmpEq v mtimeStr then true
      else scanChunks fileURI mtimeStr fuel rest uriM (strncmpEq v mtimeStr) := by
  have hP : (thumbMTimeKey ++ ([0] ++ v)).length < 2 ^ 32 := by simp [thumbMTimeKey]; omega
  have key1 : textChunk thumbMTimeKey v ++ rest =
      u32be (thumbMTimeKey ++ ([0] ++ v)).length ++ (tEXtType ++ ((thumbMTimeKey ++ ([0] ++ v)) ++
        (u32be (crc 0 (tEXtType ++ (thumbMTimeKey ++ ([0] ++ v)))) ++ rest))) := by
    simp [textChunk, List.append_assoc]
    congr 1
    omega
  have hsplit : thumbMTimeKey ++ ([0] ++ v) = (thumbMTimeKey ++ [0]) ++ v :=
    (List.append_assoc _ _ _).symm
  have htake11 : (thumbMTimeKey ++ ([0] ++ v)).take 11 = thumbMTimeKey.take 11 :=
    List.take_append_of_le_length (by norm_num [thumbMTimeKey])
  have hne : ¬ ((thumbMTimeKey ++ ([0] ++ v)).take 11 = thumbURIKey ++ [0]) := by
    rw [htake11]; decide
  have hk : (thumbMTimeKey ++ ([0] ++ v)).take 13 = thumbMTimeKey ++ [0] := by
    rw [hsplit]; exact take_app rfl
  have hd : (thumbMTimeKey ++ ([0] ++ v)).drop 13 = v := by
    rw [hsplit]; exact drop_app rfl
  have hcrc : beVal (u32be (crc 0 (tEXtType ++ (thumbMTimeKey ++ ([0] ++ v))))) =
      crc (crc 0 tEXtType) (thumbMTimeKey ++ ([0] ++ v)) := by
    rw [crc_append]; exact beVal_u32be (crc_lt _ (by norm_num))
  rw [key1, scan_chunk_step fileURI mtimeStr tEXtType (thumbMTimeKey ++ ([0] ++ v))
    (u32be (crc 0 (tEXtType ++ (thumbMTimeKey ++ ([0] ++ v))))) rest uriM mtM fuel rfl rfl hP]
  rw [if_pos rfl, if_pos hcrc]
  simp only [eq_false hne, if_false, hk, hd, eq_self_iff_true, if_true]

/-- Scanning a tEXt-free chunk sequence can never return true, whatever the
flags already say: the loop only returns true inside the tEXt branch. -/
theorem scan_noText {rest : List Nat} (fileURI mtimeStr : List Nat) (h : NoTextChunks rest) :
    ∀ fuel uriM mtM, scanChunks fileURI mtimeStr fuel rest uriM mtM = false := by
  induction h with
  | short rest h =>
    intro fuel uriM mtM
    cases fuel with
    | zero => rfl
    | succ fuel => simp only [scanChunks]; rw [if_pos h]
  | skip rest h8 ht hrec ih =>
    intro fuel uriM mtM
    cases fuel with
    | zero => rfl
    | succ fuel =>
      simp only [scanChunks]
      rw [if_neg h8, if_neg ht]
      exact ih fuel uriM mtM

/-- Unfolding `check_png_attributes` on a file that begins with the PNG
signature: the signature is consumed and the chunk loop starts. -/
theorem check_unfold (R fileURI : List Nat) (mtime : Nat) :
    check_png_attributes (pngSignature ++ R) fileURI mtime =
      scanChunks fileURI (decimal mtime) (pngSignature ++ R).length R false false := by
  have h1 : List.take 8 (pngSignature ++ R) = pngSignature := take_app rfl
  have h2 : List.drop 8 (pngSignature ++ R) = R := drop_app rfl
  unfold check_png_attributes
  rw [if_neg (by simp [pngSignature]), if_pos h1, h2]

/-- Scanning the spliced `Thumb::URI` and `Thumb::MTime` chunks followed by
a tEXt-free tail: the result is exactly the conjunction of the two prefix
comparisons. -/
theorem scan_spliced (fileURI mtimeStr uri mt tail : List Nat) (fuel : Nat)
    (hU : uri.length + 11 < 2 ^ 32) (hM : mt.length + 13 < 2 ^ 32)
    (htail : NoTextChunks tail) :
    scanChunks fileURI mtimeStr (fuel + 2)
      (textChunk thumbURIKey uri ++ (textChunk thumbMTimeKey mt ++ tail)) false false =
      (strncmpEq uri fileURI && strncmpEq mt mtimeStr) := by
  rw [show fuel + 2 = (fuel + 1) + 1 from rfl]
  rw [scan_uri_step fileURI mtimeStr uri _ false false (fuel + 1) hU]
  rw [Bool.and_false, if_neg (by simp)]
  rw [scan_mtime_step fileURI mtimeStr mt tail (strncmpEq uri fileURI) false fuel hM]
  cases hb : strncmpEq uri fileURI && strncmpEq mt mtimeStr with
  | false =>
    rw [if_neg (by simp)]
    exact scan_noText fileURI mtimeStr htail fuel _ _
  | true =>
    simp

/-- The writer's output on a well-formed PNG stream (signature, IHDR with
its 13-byte payload and 4-byte checksum, then anything): the first 33 bytes
pass through, the two tEXt chunks are spliced in, the tail follows. -/
theorem png_writer_spliced (uri mt ip ic tail : List Nat)
    (hip : ip.length = 13) (hic : ic.length = 4) :
    (png_writer uri mt 0 (pngSignature ++ (u32be 13 ++ (ihdrType ++ (ip ++ (ic ++ tail)))))).1 =
      pngSignature ++ (u32be 13 ++ (ihdrType ++ (ip ++ (ic ++
        (textChunk thumbURIKey uri ++ (textChunk thumbMTimeKey mt ++ tail)))))) := by
  have hpre : pngSignature ++ (u32be 13 ++ (ihdrType ++ (ip ++ (ic ++ tail)))) =
      (pngSignature ++ (u32be 13 ++ (ihdrType ++ (ip ++ ic)))) ++ tail := by
    simp [List.append_assoc]
  have hlen : (pngSignature ++ (u32be 13 ++ (ihdrType ++ (ip ++ ic)))).length = 33 := by
    simp [pngSignature, u32be_length, ihdrType, hip, hic]
  have hinj : inject_pos = 33 := rfl
  have hdlen : (pngSignature ++ (u32be 13 ++ (ihdrType ++ (ip ++ (ic ++ tail))))).length =
      33 + tail.length := by
    simp [pngSignature, u32be_length, ihdrType, hip, hic]
    omega
  have hcond : 0 < inject_pos ∧ inject_pos ≤
      0 + (pngSignature ++ (u32be 13 ++ (ihdrType ++ (ip ++ (ic ++ tail))))).length := by
    rw [hinj, hdlen]
    omega
  unfold png_writer
  rw [if_pos hcond]
  simp only [hinj, Nat.sub_zero]
  rw [hpre, take_app hlen, drop_app hlen]
  simp [List.append_assoc]

/-- C1 (amended): a cache entry produced by the writer on a well-formed
PNG encoder stream (signature, IHDR, then a tEXt-free remainder) validates
against (fileURI, mtime') if and only if the checked URI is a string
prefix of the stored URI and the decimal rendering of the checked mtime is
a string prefix of the stored one.  Round-trip at the original (URI,
mtime) is the reflexive case; sensitivity holds exactly for non-prefixes,
because the scanner compares with
strncmp(value, expected, strlen(expected)). -/
theorem writer_scanner_roundtrip (uri ip ic tail fileURI : List Nat) (mtime mtime' : Nat)
    (hip : ip.length = 13) (hic : ic.length = 4)
    (hU : uri.length + 11 < 2 ^ 32) (hM : (decimal mtime).length + 13 < 2 ^ 32)
    (htail : NoTextChunks tail) :
    check_png_attributes ((png_writer uri (decimal mtime) 0
        (pngSignature ++ (u32be 13 ++ (ihdrType ++ (ip ++ (ic ++ tail)))))).1) fileURI mtime'
      = true ↔
      (uri.take fileURI.length = fileURI ∧
        (decimal mtime).take (decimal mtime').length = decimal mtime') := by
  rw [png_writer_spliced uri (decimal mtime) ip ic tail hip hic]
  rw [check_unfold]
  obtain ⟨f, hf⟩ : ∃ f, (pngSignature ++ (u32be 13 ++ (ihdrType ++ (ip ++ (ic ++
      (textChunk thumbURIKey uri ++ (textChunk thumbMTimeKey (decimal mtime) ++ tail))))))).length
      = (f + 2) + 1 :=
    ⟨(pngSignature ++ (u32be 13 ++ (ihdrType ++ (ip ++ (ic ++
      (textChunk thumbURIKey uri ++ (textChunk thumbMTimeKey (decimal mtime) ++ tail))))))).length
      - 3, by simp [pngSignature]⟩
  rw [hf]
  have h13 : (u32be 13 : List Nat) = u32be ip.length := by rw [hip]
  rw [h13]
  rw [scan_skip_step fileURI (decimal mtime') ihdrType ip ic _ false false (f + 2) rfl hic
    (by rw [hip]; norm_num) (by decide)]
  rw [scan_spliced fileURI (decimal mtime') uri (decimal mtime) tail f hU hM htail]
  simp [strncmpEq]

/-- Once the cumulative byte count has reached `inject_pos`, every further
call passes through unmodified. -/
theorem png_writer_run_past (thumbURI thumbMTime : List Nat) :
    ∀ (ds : List (List Nat)) (bw : Nat), inject_pos ≤ bw →
      png_writer_run thumbURI thumbMTime bw ds = ds.flatten := by
  intro ds
  induction ds with
  | nil => intro bw _; rfl
  | cons d ds ih =>
    intro bw hbw
    have hcond : ¬ (bw < inject_pos ∧ inject_pos ≤ bw + d.length) := by
      intro h
      omega
    simp only [png_writer_run, png_writer, if_neg hcond]
    rw [ih (bw + d.length) (by omega)]
    rfl

/-- While the cumulative byte count is still short of `inject_pos` and the
remaining calls carry it past, the run output is the one-shot splice of the
remaining input at offset `inject_pos - bw`. -/
theorem png_writer_run_inject (thumbURI thumbMTime : List Nat) :
    ∀ (ds : List (List Nat)) (bw : Nat), bw < inject_pos →
      inject_pos ≤ bw + ds.flatten.length →
      png_writer_run thumbURI thumbMTime bw ds =
        ds.flatten.take (inject_pos - bw) ++ textChunk thumbURIKey thumbURI ++
          textChunk thumbMTimeKey thumbMTime ++ ds.flatten.drop (inject_pos - bw) := by
  intro ds
  induction ds with
  | nil =>
    intro bw hbw hlen
    simp at hlen
    omega
  | cons d ds ih =>
    intro bw hbw hlen
    by_cases hd : inject_pos ≤ bw + d.length
    · have hcond : bw < inject_pos ∧ inject_pos ≤ bw + d.length := ⟨hbw, hd⟩
      simp only [png_writer_run, png_writer, if_pos hcond]
      rw [png_writer_run_past thumbURI thumbMTime ds _ (by omega)]
      have ht : (d ++ ds.flatten).take (inject_pos - bw) = d.take (inject_pos - bw) :=
        List.take_append_of_le_length (by omega)
      have hdr : (d ++ ds.flatten).drop (inject_pos - bw) = d.drop (inject_pos - bw) ++ ds.flatten :=
        List.drop_append_of_le_length (by omega)
      simp only [List.flatten_cons, ht, hdr]
      simp [List.append_assoc]
    · have hcond : ¬ (bw < inject_pos ∧ inject_pos ≤ bw + d.length) := by
        intro h
        omega
      simp only [png_writer_run, png_writer, if_neg hcond]
      rw [ih (bw + d.length) (by omega) (by simp at hlen ⊢; omega)]
      have ht : (d ++ ds.flatten).take (inject_pos - bw) =
          d ++ ds.flatten.take (inject_pos - bw - d.length) := by
        rw [List.take_append_eq_append_take]
        congr 1
        exact List.take_of_length_le (by omega)
      have hdr : (d ++ ds.flatten).drop (inject_pos - bw) =
          ds.flatten.drop (inject_pos - bw - d.length) := by
        rw [List.drop_append_eq_append_drop]
        rw [List.drop_of_length_le (by omega)]
        simp
      simp only [List.flatten_cons, ht, hdr]
      have hsub : inject_pos - (bw + d.length) = inject_pos - bw - d.length := by omega
      rw [hsub]
      simp [List.append_assoc]

/-- When no candidate loads, the loop examines every tier index in order. -/
theorem tryTiers_all_miss (candExists loadOk : Nat → Bool) (hlo : ∀ j, loadOk j = false) :
    ∀ js, tryTiers candExists loadOk js = (false, js) := by
  intro js
  induction js with
  | nil => rfl
  | cons j js ih =>
    simp only [tryTiers, hlo j, ih]
    by_cases hex : candExists j <;> simp [hex]

/-- The tEXt chunks of the writer, with the length field, key, NUL, value
and checksum spelled out (`Thumb::URI` key: 10 bytes, so the length field
is 11 + value length). -/
theorem textChunk_uri_explicit (v : List Nat) :
    textChunk thumbURIKey v = u32be (11 + v.length) ++ tEXtType ++ thumbURIKey ++ [0] ++ v ++
      u32be (crc 0 (tEXtType ++ thumbURIKey ++ [0] ++ v)) := by
  unfold textChunk
  norm_num [thumbURIKey]

/-- As `textChunk_uri_explicit`, for the 12-byte `Thumb::MTime` key. -/
theorem textChunk_mtime_explicit (v : List Nat) :
    textChunk thumbMTimeKey v = u32be (13 + v.length) ++ tEXtType ++ thumbMTimeKey ++ [0] ++ v ++
      u32be (crc 0 (tEXtType ++ thumbMTimeKey ++ [0] ++ v)) := by
  unfold textChunk
  norm_num [thumbMTimeKey]

/-- C2: on any byte stream of at least 33 bytes handed to the interceptor
in one call, the output is the first 33 input bytes unmodified, then a
complete `Thumb::URI` tEXt chunk (length field = key length incl. NUL +
value length, payload = key ++ NUL ++ URI, checksum = CRC-32 over type +
payload), then the analogous `Thumb::MTime` chunk, then the remaining
input bytes unmodified. -/
theorem png_writer_layout (png thumbURI thumbMTime : List Nat) (h : 33 ≤ png.length) :
    (png_writer thumbURI thumbMTime 0 png).1 =
      png.take 33 ++
        (u32be (11 + thumbURI.length) ++ tEXtType ++ thumbURIKey ++ [0] ++ thumbURI ++
          u32be (crc 0 (tEXtType ++ thumbURIKey ++ [0] ++ thumbURI))) ++
        (u32be (13 + thumbMTime.length) ++ tEXtType ++ thumbMTimeKey ++ [0] ++ thumbMTime ++
          u32be (crc 0 (tEXtType ++ thumbMTimeKey ++ [0] ++ thumbMTime))) ++
      png.drop 33 := by
  have hcond : 0 < inject_pos ∧ inject_pos ≤ 0 + png.length := by
    rw [show inject_pos = 33 from rfl]
    omega
  unfold png_writer
  rw [if_pos hcond]
  simp only [show inject_pos = 33 from rfl, Nat.sub_zero]
  rw [textChunk_uri_explicit, textChunk_mtime_explicit]

/-- Witness for C2 at a concrete 33-byte stream and one-byte URI/mtime
strings. -/
theorem png_writer_layout_witness :
    33 ≤ (List.replicate 33 (0 : Nat)).length ∧
    (png_writer [97] [49] 0 (List.replicate 33 0)).1 =
      (List.replicate 33 (0 : Nat)).take 33 ++
        (u32be (11 + ([97] : List Nat).length) ++ tEXtType ++ thumbURIKey ++ [0] ++ [97] ++
          u32be (crc 0 (tEXtType ++ thumbURIKey ++ [0] ++ [97]))) ++
        (u32be (13 + ([49] : List Nat).length) ++ tEXtType ++ thumbMTimeKey ++ [0] ++ [49] ++
          u32be (crc 0 (tEXtType ++ thumbMTimeKey ++ [0] ++ [49]))) ++
      (List.replicate 33 (0 : Nat)).drop 33 :=
  ⟨by decide, png_writer_layout (List.replicate 33 0) [97] [49] (by decide)⟩

/-- C9: the interceptor's output is independent of how the encoder
partitions the byte stream into write calls — for every partition of a
stream of at least 33 bytes, the run of the cumulative-byte-count state
machine equals the one-shot splice specification on the concatenated
input. -/
theorem png_writer_run_refines_splice (thumbURI thumbMTime : List Nat) (calls : List (List Nat))
    (h : 33 ≤ calls.flatten.length) :
    png_writer_run thumbURI thumbMTime 0 calls = splice_spec thumbURI thumbMTime calls.flatten := by
  rw [png_writer_run_inject thumbURI thumbMTime calls 0 (by norm_num [inject_pos])
    (by rw [show inject_pos = 33 from rfl]; omega)]
  unfold splice_spec
  norm_num [show inject_pos = 33 from rfl]

/-- Witness for C9: a three-call partition (20 + 0 + 20 bytes) straddling
the injection offset. -/
theorem png_writer_run_refines_splice_witness :
    png_writer_run [97] [49] 0 [List.replicate 20 0, [], List.replicate 20 0] =
      splice_spec [97] [49]
        ([List.replicate 20 0, [], List.replicate 20 0] : List (List Nat)).flatten :=
  png_writer_run_refines_splice [97] [49] [List.replicate 20 0, [], List.replicate 20 0] (by decide)

/-- C6: the `crc` function reproduces standard PNG CRC-32 exactly:
`crc(0, "")` is 0; on the canonical check vector `"123456789"` it yields
0xCBF43926; on tEXt-chunk byte sequences (`"tEXt"` + key + NUL + value)
it agrees with the published CRC-32 value and with a table-free
bit-at-a-time reference implementation. -/
theorem crc_reference_vectors :
    crc 0 [] = 0 ∧
    crc 0 [49, 50, 51, 52, 53, 54, 55, 56, 57] = 0xcbf43926 ∧
    crc32_ref [49, 50, 51, 52, 53, 54, 55, 56, 57] = 0xcbf43926 ∧
    crc 0 (tEXtType ++ thumbURIKey ++ [0] ++ picURI) = 0xdaaf7314 ∧
    crc 0 (tEXtType ++ thumbURIKey ++ [0] ++ picURI) =
      crc32_ref (tEXtType ++ thumbURIKey ++ [0] ++ picURI) ∧
    crc 0 (tEXtType ++ thumbMTimeKey ++ [0] ++ decimal 1700000000) = 0x15746b20 ∧
    crc 0 (tEXtType ++ thumbMTimeKey ++ [0] ++ decimal 1700000000) =
      crc32_ref (tEXtType ++ thumbMTimeKey ++ [0] ++ decimal 1700000000) :=
  ⟨by decide, by decide, by decide, by decide, by decide, by decide, by decide⟩

/-- Witness for C5: a chunk whose correct checksum has one flipped bit is
skipped without setting any flag, even though its key and value match the
scanned-for URI. -/
theorem scan_badcrc_step_witness :
    beVal c5badCRC ≠ crc (crc 0 tEXtType) c5payload ∧
    scanChunks [97] [49] 1
        (u32be c5payload.length ++ (tEXtType ++ (c5payload ++ (c5badCRC ++ [])))) false false =
      scanChunks [97] [49] 0 [] false false :=
  ⟨by decide,
   scan_badcrc_step [97] [49] c5payload c5badCRC [] false false 0 (by decide) (by decide)
     (by decide)⟩

/-- C10: the scanner's match flags are overwritten, not latched: every
CRC-valid `Thumb::URI` (resp. `Thumb::MTime`) chunk re-evaluates its flag
from scratch, and the scan returns true only at a chunk after which both
most-recently-computed flags hold simultaneously.  Hence a file containing
both a matching URI chunk and a matching MTime chunk can still scan false
when a later CRC-valid non-matching duplicate clears the first flag before
the second is ever set — while the same file without the duplicate scans
true. -/
theorem scanner_flags_overwritten :
    (∀ fileURI mtimeStr v rest : List Nat, ∀ uriM mtM : Bool, ∀ fuel : Nat,
      v.length + 11 < 2 ^ 32 →
      scanChunks fileURI mtimeStr (fuel + 1) (textChunk thumbURIKey v ++ rest) uriM mtM =
        if strncmpEq v fileURI && mtM then true
        else scanChunks fileURI mtimeStr fuel rest (strncmpEq v fileURI) mtM) ∧
    (∀ fileURI mtimeStr v rest : List Nat, ∀ uriM mtM : Bool, ∀ fuel : Nat,
      v.length + 13 < 2 ^ 32 →
      scanChunks fileURI mtimeStr (fuel + 1) (textChunk thumbMTimeKey v ++ rest) uriM mtM =
        if uriM && strncmpEq v mtimeStr then true
        else scanChunks fileURI mtimeStr fuel rest uriM (strncmpEq v mtimeStr)) ∧
    check_png_attributes scannerFileCleared [97] 5 = false ∧
    check_png_attributes scannerFileBoth [97] 5 = true :=
  ⟨fun fileURI mtimeStr v rest uriM mtM fuel hv =>
      scan_uri_step fileURI mtimeStr v rest uriM mtM fuel hv,
   fun fileURI mtimeStr v rest uriM mtM fuel hv =>
      scan_mtime_step fileURI mtimeStr v rest uriM mtM fuel hv,
   by decide, by decide⟩

/-- Witness for C10: a URI chunk with value `"b"` scanned for URI `"a"`
overwrites a previously-true URI flag with false. -/
theorem scanner_flags_overwritten_witness :
    scanChunks [97] [49] 1 (textChunk thumbURIKey [98] ++ []) true false =
      (if strncmpEq [98] [97] && false then true
        else scanChunks [97] [49] 0 [] (strncmpEq [98] [97]) false) ∧
    check_png_attributes scannerFileCleared [97] 5 = false :=
  ⟨scanner_flags_overwritten.1 [97] [49] [98] [] true false 0 (by decide),
   scanner_flags_overwritten.2.2.1⟩

/-- C1 counterexample: the claim's sensitivity direction fails.  An entry
stored for URI `"ab"` and mtime 12 validates against the *different* URI
`"a"`; an entry stored with mtime 123 validates against the different
mtime 12 (decimal `"12"` is a prefix of `"123"`). -/
theorem writer_scanner_leading_match_counterexample :
    (([97] : List Nat) ≠ [97, 98] ∧
      check_png_attributes ((png_writer [97, 98] (decimal 12) 0 pngMin).1) [97] 12 = true) ∧
    ((12 : Nat) ≠ 123 ∧
      check_png_attributes ((png_writer [97, 98] (decimal 123) 0 pngMin).1) [97, 98] 12 = true) :=
  ⟨⟨by decide, by decide⟩, ⟨by decide, by decide⟩⟩

/-- Witness for C1 at the stored (URI, mtime) themselves. -/
theorem writer_scanner_roundtrip_witness :
    check_png_attributes ((png_writer [97, 98] (decimal 12) 0
        (pngSignature ++ (u32be 13 ++ (ihdrType ++ (List.replicate 13 0 ++
          ([0, 0, 0, 0] ++ ([] : List Nat))))))).1) [97, 98] 12 = true :=
  (writer_scanner_roundtrip [97, 98] (List.replicate 13 0) [0, 0, 0, 0] [] [97, 98] 12 12
      (by decide) (by decide) (by decide) (by decide) (NoTextChunks.short [] (by decide))).mpr
    ⟨by decide, by decide⟩

/-- C3 (code bug): when the destination cannot be opened (`fd ≤ 0`), the
store skips all writing yet still returns TRUE, because `retval` is
initialized to TRUE and only the encode-failure path clears it; the
write-failure path itself does behave as specified (returns false and
unlinks the partial file). -/
theorem store_failure_paths :
    store_thumbnail_to_cache 256 256 ⟨true, false, true⟩ = (true, false, false) ∧
    store_thumbnail_to_cache 256 256 ⟨true, true, false⟩ = (false, true, false) := by
  decide

/-- C4 counterexample: a 128 × 200 bitmap has long edge 200 — neither 128
nor 256 — yet the store accepts it (width = 128 passes the gate) and
creates a file. -/
theorem store_long_edge_counterexample :
    max 128 200 ≠ 128 ∧ max 128 200 ≠ 256 ∧
    store_thumbnail_to_cache 128 200 ⟨true, true, true⟩ = (true, true, true) := by
  decide

/-- C4 (amended): the store rejects a bitmap — returning false without
creating any file — exactly when *neither* dimension equals 256 and
neither equals 128; the gate tests each dimension for equality rather than
the long edge. -/
theorem store_size_gate (width height : Nat) (env : StoreEnv)
    (hw : width ≠ 256 ∧ width ≠ 128) (hh : height ≠ 256 ∧ height ≠ 128) :
    store_thumbnail_to_cache width height env = (false, false, false) := by
  have hnone : thumbnail_level width height = none := by
    unfold thumbnail_level
    rw [if_neg (by omega), if_neg (by omega)]
  unfold store_thumbnail_to_cache
  rw [hnone]
  rfl

/-- Witness for C4 (amended) at 200 × 100. -/
theorem store_size_gate_witness :
    (200 ≠ 256 ∧ 200 ≠ 128) ∧
    store_thumbnail_to_cache 200 100 ⟨true, true, true⟩ = (false, false, false) :=
  ⟨by decide, store_size_gate 200 100 ⟨true, true, true⟩ (by decide) (by decide)⟩

/-- C7: the tier search order.  The loop's tier list is `[large, normal]`
exactly when either requested dimension exceeds 128 and `[normal]`
otherwise, and — shown on a run in which no candidate loads and the shared
directory exists — both the primary and the shared searches examine their
candidates in exactly that order. -/
theorem tier_search_order (width height : Nat) (env : LoadEnv)
    (h1 : width ≤ 256) (h2 : height ≤ 256) (h3 : env.hasLocalFilename = true)
    (h4 : ∀ j m, env.primaryLoadOk j m = false) (h5 : ∀ j m, env.sharedLoadOk j m = false)
    (h6 : env.sharedDirExists = true) :
    tierList width height = (if 128 < width ∨ 128 < height then [0, 1] else [1]) ∧
    (load_thumbnail_from_cache width height env).2 =
      (tierList width height).map (fun j => (false, j)) ++
        (tierList width height).map (fun j => (true, j)) := by
  refine ⟨rfl, ?_⟩
  have hp := tryTiers_all_miss env.primaryExists (fun j => env.primaryLoadOk j env.mtimeVal)
    (fun j => h4 j env.mtimeVal) (tierList width height)
  have hs := tryTiers_all_miss env.sharedExists (fun j => env.sharedLoadOk j env.mtimeVal)
    (fun j => h5 j env.mtimeVal) (tierList width height)
  unfold load_thumbnail_from_cache
  rw [if_neg (show ¬ (256 < width ∨ 256 < height) by omega),
    if_neg (show ¬ (env.hasLocalFilename = false) by rw [h3]; simp), hp, hs]
  simp [h6]

/-- Witness for C7 at a 200 × 50 request (tries large then normal, in both
searches). -/
theorem tier_search_order_witness :
    tierList 200 50 = (if 128 < 200 ∨ 128 < 50 then [0, 1] else [1]) ∧
    (load_thumbnail_from_cache 200 50 c7env).2 =
      (tierList 200 50).map (fun j => (false, j)) ++
        (tierList 200 50).map (fun j => (true, j)) :=
  tier_search_order 200 50 c7env (by decide) (by decide) rfl (fun _ _ => rfl) (fun _ _ => rfl)
    rfl

/-- C8 (code bug): the source never inspects `stat`'s return value, so a
failed stat does not produce a miss — the lookup continues with whatever
`file_stat.st_mtime` holds and can report a hit. -/
theorem load_stat_failure_can_hit :
    c8env.statOk = false ∧ (load_thumbnail_from_cache 100 100 c8env).1 = true := by
  decide

end ThumbnailCache
